import Mathlib

/-!
Shallow embedding of `mpl_gui/_manage_backend.py`.

The module owns one piece of process-wide state (`_backend_mod`, the active
backend handle) and two configuration slots (`rcParams["backend"]` and
`rcParamsDefault["backend"]`).  External collaborators are modelled as an
environment record: the registry import (`importlib.import_module` wrapped
into a `backend_mod` class), the running-framework probe
(`cbook._get_running_interactive_framework`) and the optional IPython
session.  Mutation of `sys.modules` and the `ip.enable_gui` notifications
are part of the explicit state so that side effects of failed calls stay
observable.
-/

set_option autoImplicit false

namespace MplGui

/-- A backend handle (`matplotlib.backend_bases._Backend` subclass or the
`backend_mod` class built from an imported module).  `hid` models the CPython
object identity `id(backend_mod)`; `required_interactive_framework` models
`getattr(backend_mod.FigureCanvas, "required_interactive_framework", None)`. -/
structure Backend where
  hid : Nat
  required_interactive_framework : Option String
  deriving DecidableEq

/-- Result of asking the registry for a backend name: either the imported
handle, or an `ImportError` because the toolkit dependency is missing. -/
inductive ImportResult
  | ok (b : Backend)
  | unavailable
  deriving DecidableEq

/-- A value stored in an rcParams backend slot: either the auto-detection
sentinel `rcsetup._auto_backend_sentinel` or a plain string. -/
inductive RcVal
  | autoSentinel
  | str (s : String)
  deriving DecidableEq

/-- The external collaborators of the resolver, fixed for the duration of a
call: the registry (`resolve`), the probe (`runningFramework`, `Option.none`
when no interactive framework owns the event loop) and whether an active
IPython session is importable (`sys.modules.get ... get_ipython()`). -/
structure Env where
  resolve : String → ImportResult
  runningFramework : Option String
  ipythonActive : Bool

/-- The mutable process-wide state touched by the module: `_backend_mod`,
the two rcParams slots, the `sys.modules` registrations performed for
directly-passed handles, and the log of `ip.enable_gui` notifications. -/
structure MState where
  backendMod : Option Backend
  rcBackend : RcVal
  rcDefault : RcVal
  sysModules : List (String × Backend)
  enabledGui : List (Option String)
  deriving DecidableEq

/-- The two failure modes of `select_gui_toolkit`: the registry import
failing (toolkit dependency missing), and the running-framework
incompatibility raised at line 114 of `_manage_backend.py`. -/
inductive PyErr
  | importUnavailable (name : String)
  | incompatible (requested : String) (required : String) (running : String)
  deriving DecidableEq

/-- Both failure modes are raised as Python `ImportError`: the registry
failure is the `ImportError` of `importlib.import_module`, and the
incompatibility failure is literally `raise ImportError(...)` in the source.
The auto-detection loop's `except ImportError` therefore catches both. -/
def PyErr.isImportError : PyErr → Bool
  | PyErr.importUnavailable _ => true
  | PyErr.incompatible _ _ _ => true

/-- An ASCII single-quote, used by the `{!r}` formatting of the error
message. -/
def pyQuote : String :=
  String.singleton (Char.ofNat 39)

/-- Python `repr` of a string: the string wrapped in single quotes. -/
def pyRepr (s : String) : String :=
  pyQuote ++ s ++ pyQuote

/-- The message carried by each error, following the source's format
string. -/
def PyErr.message : PyErr → String
  | PyErr.importUnavailable name =>
      "No module named " ++ pyRepr name
  | PyErr.incompatible requested required running =>
      "Cannot load backend " ++ pyRepr requested ++
        " which requires the " ++ pyRepr required ++
        " interactive framework, as " ++ pyRepr running ++
        " is currently running"

/-- The argument accepted by `select_gui_toolkit`: absent (`None`), the auto
sentinel, a backend name, or a backend handle object. -/
inductive SelectArg
  | none
  | auto
  | name (s : String)
  | handle (b : Backend)
  deriving DecidableEq

/-- Outcome of a call: an error together with the state it leaves behind, or
the returned handle together with the new state. -/
def SelRes : Type :=
  Except (PyErr × MState) (Backend × MState)

instance : DecidableEq SelRes := fun a b =>
  match a, b with
  | Except.ok x, Except.ok y =>
      if h : x = y then Decidable.isTrue (congrArg Except.ok h)
      else Decidable.isFalse (fun hc => h (Except.ok.inj hc))
  | Except.error x, Except.error y =>
      if h : x = y then Decidable.isTrue (congrArg Except.error h)
      else Decidable.isFalse (fun hc => h (Except.error.inj hc))
  | Except.ok _, Except.error _ => Decidable.isFalse (fun hc => Except.noConfusion hc)
  | Except.error _, Except.ok _ => Decidable.isFalse (fun hc => Except.noConfusion hc)

/-- Decimal digits of `n`, most significant first, by fuel-indexed division;
`natDecimalAux f n` is the full digit list whenever `n ≤ f`. -/
def natDecimalAux : Nat → Nat → List Char
  | 0, _ => []
  | Nat.succ f, n =>
      if n = 0 then []
      else natDecimalAux f (n / 10) ++ [Nat.digitChar (n % 10)]

/-- Decimal rendering of a natural number, modelling the f-string
interpolation of `id(backend_mod)`. -/
def natDecimal (n : Nat) : String :=
  if n = 0 then String.singleton (Char.ofNat 48)
  else String.mk (natDecimalAux n n)

/-- The synthesized persisted-name key for a directly-passed handle:
the f-string `module://_backend_mod_` followed by the decimal object id. -/
def backendKey (b : Backend) : String :=
  "module://_backend_mod_" ++ natDecimal b.hid

/-- Stand-in for the Python `repr` of a handle object, used when the
incompatibility message formats a non-string `newbackend` with `{!r}`. -/
def backendRepr (b : Backend) : String :=
  "<backend object " ++ natDecimal b.hid ++ ">"

/-- The committing writes of a successful selection: persist
`rc_params_string` into both rcParams slots, replace `_backend_mod`, and —
when an IPython session is active — call `ip.enable_gui` with the handle's
required framework. -/
def commitState (env : Env) (rcParamsString : String) (backend_mod : Backend)
    (s : MState) : MState :=
  let s1 : MState :=
    { s with
      rcBackend := RcVal.str rcParamsString
      rcDefault := RcVal.str rcParamsString
      backendMod := Option.some backend_mod }
  if env.ipythonActive then
    { s1 with enabledGui := s1.enabledGui ++ [backend_mod.required_interactive_framework] }
  else s1

/-- The tail of `select_gui_toolkit` once `backend_mod` and
`rc_params_string` are in hand: the compatibility check against the probe,
then the committing writes and the return. -/
def finishSelect (env : Env) (requestedDesc : String) (rcParamsString : String)
    (backend_mod : Backend) (s : MState) : SelRes :=
  match backend_mod.required_interactive_framework with
  | Option.none => Except.ok (backend_mod, commitState env rcParamsString backend_mod s)
  | Option.some required =>
      match env.runningFramework with
      | Option.none => Except.ok (backend_mod, commitState env rcParamsString backend_mod s)
      | Option.some current =>
          -- `if current_framework and required_framework and current_framework != required_framework`
          if current ≠ "" ∧ required ≠ "" ∧ current ≠ required then
            Except.error (PyErr.incompatible requestedDesc required current, s)
          else Except.ok (backend_mod, commitState env rcParamsString backend_mod s)

/-- The string-name branch of `select_gui_toolkit`: resolve the name through
the registry (import failure is `Unavailable`), with `rc_params_string` the
name itself. -/
def selectName (env : Env) (n : String) (s : MState) : SelRes :=
  match env.resolve n with
  | ImportResult.unavailable => Except.error (PyErr.importUnavailable n, s)
  | ImportResult.ok backend_mod => finishSelect env n n backend_mod s

/-- The handle branch of `select_gui_toolkit`: use the object as-is,
synthesize the persisted-name key, and register it in `sys.modules`
before the compatibility check runs. -/
def selectHandle (env : Env) (b : Backend) (s : MState) : SelRes :=
  let rc_params_string := backendKey b
  let s1 : MState := { s with sysModules := s.sysModules ++ [(rc_params_string, b)] }
  finishSelect env (backendRepr b) rc_params_string b s1

/-- The priority table `mapping` of the auto-detection branch. -/
def frameworkMapping : String → Option String
  | "qt" => Option.some ("qtagg")
  | "gtk3" => Option.some ("gtk3agg")
  | "gtk4" => Option.some ("gtk4agg")
  | "wx" => Option.some ("wxagg")
  | "tk" => Option.some ("tkagg")
  | "macosx" => Option.some ("macosx")
  | "headless" => Option.some ("agg")
  | _ => Option.none

/-- The fixed fallback sequence appended after the best guess (the
cairo-based backends are deliberately excluded). -/
def fallbackCandidates : List String :=
  ["macosx", "qt5agg", "gtk3agg", "tkagg", "wxagg"]

/-- The candidate list of the auto-detection branch: the best guess for the
probed framework (if mapped) first, then the fixed fallback sequence. -/
def autoCandidates (env : Env) : List String :=
  (match env.runningFramework with
   | Option.none => []
   | Option.some fw =>
       match frameworkMapping fw with
       | Option.none => []
       | Option.some g => [g]) ++ fallbackCandidates

/-- The auto-detection loop: try `select_gui_toolkit(candidate)` for each
candidate, advancing on `ImportError`; when the list is exhausted, select
the last-resort `agg` backend, letting its failure propagate. -/
def tryCandidates (env : Env) : List String → MState → SelRes
  | [], s => selectName env ("agg") s
  | c :: rest, s =>
      match selectName env c s with
      | Except.ok r => Except.ok r
      | Except.error (e, s1) =>
          if PyErr.isImportError e then tryCandidates env rest s1
          else Except.error (e, s1)

/-- `select_gui_toolkit`: `None` is replaced by the live rcParams backend
slot; the auto sentinel triggers the candidate loop; a string goes through
the registry; a handle object is used directly. -/
def select_gui_toolkit (env : Env) : SelectArg → MState → SelRes
  | SelectArg.none, s =>
      match s.rcBackend with
      | RcVal.autoSentinel => tryCandidates env (autoCandidates env) s
      | RcVal.str nm => selectName env nm s
  | SelectArg.auto, s => tryCandidates env (autoCandidates env) s
  | SelectArg.name nm, s => selectName env nm s
  | SelectArg.handle b, s => selectHandle env b s

/-- `current_backend_module`: select with no argument if `_backend_mod` is
unset, then return the (re-read) global. -/
def current_backend_module (env : Env) (s : MState) :
    Except (PyErr × MState) (Option Backend × MState) :=
  match s.backendMod with
  | Option.some _ => Except.ok (s.backendMod, s)
  | Option.none =>
      match select_gui_toolkit env SelectArg.none s with
      | Except.error e => Except.error e
      | Except.ok (_, s1) => Except.ok (s1.backendMod, s1)

mutual

/-- Fuel-indexed literal transcription of the recursive `select_gui_toolkit`,
where each recursive call (the per-candidate calls and the last-resort call
of the auto-detection loop) descends into `selectFuel` with one unit of fuel
less; `Option.none` means the fuel ran out. -/
def selectFuel (env : Env) : Nat → SelectArg → MState → Option SelRes
  | 0, _, _ => Option.none
  | Nat.succ n, arg, s =>
      match arg with
      | SelectArg.none =>
          match s.rcBackend with
          | RcVal.autoSentinel => tryFuel env n (autoCandidates env) s
          | RcVal.str nm => Option.some (selectName env nm s)
      | SelectArg.auto => tryFuel env n (autoCandidates env) s
      | SelectArg.name nm => Option.some (selectName env nm s)
      | SelectArg.handle b => Option.some (selectHandle env b s)
termination_by n _ _ => (n, 0)

/-- The auto-detection loop of the fuel-indexed transcription: every
candidate (and the final `agg` fallback) is passed to `selectFuel` as a
concrete string name. -/
def tryFuel (env : Env) : Nat → List String → MState → Option SelRes
  | n, [], s => selectFuel env n (SelectArg.name ("agg")) s
  | n, c :: rest, s =>
      match selectFuel env n (SelectArg.name c) s with
      | Option.none => Option.none
      | Option.some (Except.ok r) => Option.some (Except.ok r)
      | Option.some (Except.error (e, s1)) =>
          if PyErr.isImportError e then tryFuel env n rest s1
          else Option.some (Except.error (e, s1))
termination_by n l _ => (n, l.length + 1)

end

/-! ### Basic facts about the committed state -/

theorem commitState_rcBackend (env : Env) (rc : String) (b : Backend) (s : MState) :
    (commitState env rc b s).rcBackend = RcVal.str rc := by
  unfold commitState
  split <;> rfl

theorem commitState_rcDefault (env : Env) (rc : String) (b : Backend) (s : MState) :
    (commitState env rc b s).rcDefault = RcVal.str rc := by
  unfold commitState
  split <;> rfl

theorem commitState_backendMod (env : Env) (rc : String) (b : Backend) (s : MState) :
    (commitState env rc b s).backendMod = Option.some b := by
  unfold commitState
  split <;> rfl

theorem commitState_sysModules (env : Env) (rc : String) (b : Backend) (s : MState) :
    (commitState env rc b s).sysModules = s.sysModules := by
  unfold commitState
  split <;> rfl

theorem commitState_enabledGui (env : Env) (rc : String) (b : Backend) (s : MState) :
    (commitState env rc b s).enabledGui =
      (if env.ipythonActive then s.enabledGui ++ [b.required_interactive_framework]
       else s.enabledGui) := by
  unfold commitState
  split <;> simp_all

/-! ### Outcome characterizations of the selection helpers -/

theorem finishSelect_error (env : Env) (d rc : String) (b : Backend) (s : MState)
    (e : PyErr) (s1 : MState)
    (h : finishSelect env d rc b s = Except.error (e, s1)) :
    s1 = s ∧
      ∃ req cur, e = PyErr.incompatible d req cur ∧
        b.required_interactive_framework = Option.some req ∧
        env.runningFramework = Option.some cur ∧
        cur ≠ "" ∧ req ≠ "" ∧ cur ≠ req := by
  unfold finishSelect at h
  split at h
  · exact absurd h (by simp)
  next req hreq =>
    split at h
    · exact absurd h (by simp)
    next cur hcur =>
      split at h
      next hc =>
        obtain ⟨he, hs⟩ := Prod.mk.injEq .. ▸ Except.error.inj h
        exact ⟨hs.symm, req, cur, he.symm, hreq, hcur, hc.1, hc.2.1, hc.2.2⟩
      · exact absurd h (by simp)

theorem finishSelect_ok (env : Env) (d rc : String) (b : Backend) (s : MState)
    (b1 : Backend) (s1 : MState)
    (h : finishSelect env d rc b s = Except.ok (b1, s1)) :
    b1 = b ∧ s1 = commitState env rc b s := by
  unfold finishSelect at h
  split at h
  · obtain ⟨hb, hs⟩ := Prod.mk.injEq .. ▸ Except.ok.inj h
    exact ⟨hb.symm, hs.symm⟩
  · split at h
    · obtain ⟨hb, hs⟩ := Prod.mk.injEq .. ▸ Except.ok.inj h
      exact ⟨hb.symm, hs.symm⟩
    · split at h
      · exact absurd h (by simp)
      · obtain ⟨hb, hs⟩ := Prod.mk.injEq .. ▸ Except.ok.inj h
        exact ⟨hb.symm, hs.symm⟩

theorem finishSelect_ok_of_no_framework (env : Env) (d rc : String) (b : Backend)
    (s : MState) (hrun : env.runningFramework = Option.none) :
    finishSelect env d rc b s = Except.ok (b, commitState env rc b s) := by
  unfold finishSelect
  split
  · rfl
  · rw [hrun]

theorem selectName_error (env : Env) (n : String) (s : MState) (e : PyErr) (s1 : MState)
    (h : selectName env n s = Except.error (e, s1)) : s1 = s := by
  unfold selectName at h
  split at h
  · obtain ⟨-, hs⟩ := Prod.mk.injEq .. ▸ Except.error.inj h
    exact hs.symm
  · exact (finishSelect_error _ _ _ _ _ _ _ h).1

theorem selectName_ok (env : Env) (n : String) (s : MState) (b : Backend) (s1 : MState)
    (h : selectName env n s = Except.ok (b, s1)) :
    env.resolve n = ImportResult.ok b ∧ s1 = commitState env n b s := by
  unfold selectName at h
  split at h
  · exact absurd h (by simp)
  next b0 hres =>
    obtain ⟨hb, hs⟩ := finishSelect_ok _ _ _ _ _ _ _ h
    subst hb
    exact ⟨hres, hs⟩

theorem selectHandle_error (env : Env) (b : Backend) (s : MState) (e : PyErr) (s1 : MState)
    (h : selectHandle env b s = Except.error (e, s1)) :
    s1 = { s with sysModules := s.sysModules ++ [(backendKey b, b)] } ∧
      ∃ req cur, e = PyErr.incompatible (backendRepr b) req cur := by
  unfold selectHandle at h
  obtain ⟨hs, req, cur, he, -⟩ := finishSelect_error _ _ _ _ _ _ _ h
  exact ⟨hs, req, cur, he⟩

theorem selectHandle_ok (env : Env) (b : Backend) (s : MState) (b1 : Backend) (s1 : MState)
    (h : selectHandle env b s = Except.ok (b1, s1)) :
    b1 = b ∧
      s1 = commitState env (backendKey b) b
        { s with sysModules := s.sysModules ++ [(backendKey b, b)] } := by
  exact finishSelect_ok _ _ _ _ _ _ _ h

theorem tryCandidates_error (env : Env) (l : List String) (s : MState) (e : PyErr)
    (s1 : MState) (h : tryCandidates env l s = Except.error (e, s1)) : s1 = s := by
  induction l generalizing s with
  | nil => exact selectName_error _ _ _ _ _ h
  | cons c rest ih =>
      unfold tryCandidates at h
      split at h
      · exact absurd h (by simp)
      next e0 s0 hsel =>
        split at h
        · exact (ih _ h).trans (selectName_error _ _ _ _ _ hsel)
        · obtain ⟨-, hs⟩ := Prod.mk.injEq .. ▸ Except.error.inj h
          exact hs.symm.trans (selectName_error _ _ _ _ _ hsel)

theorem select_none_eq (env : Env) (s : MState) :
    select_gui_toolkit env SelectArg.none s =
      (match s.rcBackend with
       | RcVal.autoSentinel => tryCandidates env (autoCandidates env) s
       | RcVal.str nm => selectName env nm s) :=
  rfl

theorem select_auto_eq (env : Env) (s : MState) :
    select_gui_toolkit env SelectArg.auto s =
      tryCandidates env (autoCandidates env) s :=
  rfl

theorem select_name_eq (env : Env) (nm : String) (s : MState) :
    select_gui_toolkit env (SelectArg.name nm) s = selectName env nm s :=
  rfl

theorem select_handle_eq (env : Env) (b : Backend) (s : MState) :
    select_gui_toolkit env (SelectArg.handle b) s = selectHandle env b s :=
  rfl

theorem tryCandidates_ok (env : Env) (l : List String) (s : MState) (b : Backend)
    (s1 : MState) (h : tryCandidates env l s = Except.ok (b, s1)) :
    ∃ nm, s1 = commitState env nm b s := by
  induction l generalizing s with
  | nil =>
      obtain ⟨-, hs⟩ := selectName_ok _ _ _ _ _ h
      exact ⟨_, hs⟩
  | cons c rest ih =>
      unfold tryCandidates at h
      split at h
      next r hsel =>
        have hr := Except.ok.inj h
        subst hr
        obtain ⟨-, hs⟩ := selectName_ok _ _ _ _ _ hsel
        exact ⟨_, hs⟩
      next e0 s0 hsel =>
        split at h
        · obtain ⟨nm, hs⟩ := ih _ h
          exact ⟨nm, by rw [hs, selectName_error _ _ _ _ _ hsel]⟩
        · exact absurd h (by simp)

theorem select_ok_state (env : Env) (arg : SelectArg) (s : MState) (b : Backend)
    (s1 : MState) (h : select_gui_toolkit env arg s = Except.ok (b, s1)) :
    ∃ nm s0, s0.enabledGui = s.enabledGui ∧ s1 = commitState env nm b s0 := by
  cases arg with
  | name nm =>
      obtain ⟨-, hs⟩ := selectName_ok _ _ _ _ _ h
      exact ⟨nm, s, rfl, hs⟩
  | handle b0 =>
      obtain ⟨hb, hs⟩ := selectHandle_ok _ _ _ _ _ h
      rw [hb]
      exact ⟨backendKey b0,
        { s with sysModules := s.sysModules ++ [(backendKey b0, b0)] }, rfl, hs⟩
  | auto =>
      obtain ⟨nm, hs⟩ := tryCandidates_ok _ _ _ _ _ h
      exact ⟨nm, s, rfl, hs⟩
  | none =>
      rw [select_none_eq] at h
      cases hrc : s.rcBackend with
      | autoSentinel =>
          rw [hrc] at h
          obtain ⟨nm, hs⟩ := tryCandidates_ok _ _ _ _ _ h
          exact ⟨nm, s, rfl, hs⟩
      | str nm0 =>
          rw [hrc] at h
          obtain ⟨-, hs⟩ := selectName_ok _ _ _ _ _ h
          exact ⟨nm0, s, rfl, hs⟩

theorem select_ok_post (env : Env) (arg : SelectArg) (s : MState) (b : Backend)
    (s1 : MState) (h : select_gui_toolkit env arg s = Except.ok (b, s1)) :
    ∃ nm, s1.rcBackend = RcVal.str nm ∧ s1.rcDefault = RcVal.str nm ∧
      s1.backendMod = Option.some b ∧
      s1.enabledGui =
        (if env.ipythonActive then s.enabledGui ++ [b.required_interactive_framework]
         else s.enabledGui) := by
  obtain ⟨nm, s0, hgui, hs⟩ := select_ok_state _ _ _ _ _ h
  refine ⟨nm, ?_, ?_, ?_, ?_⟩
  · rw [hs, commitState_rcBackend]
  · rw [hs, commitState_rcDefault]
  · rw [hs, commitState_backendMod]
  · rw [hs, commitState_enabledGui, hgui]

theorem select_error_state (env : Env) (arg : SelectArg) (s : MState) (e : PyErr)
    (s1 : MState) (h : select_gui_toolkit env arg s = Except.error (e, s1)) :
    s1.backendMod = s.backendMod ∧ s1.rcBackend = s.rcBackend ∧
      s1.rcDefault = s.rcDefault ∧ s1.enabledGui = s.enabledGui := by
  cases arg with
  | name nm => rw [selectName_error _ _ _ _ _ h]; exact ⟨rfl, rfl, rfl, rfl⟩
  | handle b0 =>
      obtain ⟨hs, -⟩ := selectHandle_error _ _ _ _ _ h
      rw [hs]
      exact ⟨rfl, rfl, rfl, rfl⟩
  | auto => rw [tryCandidates_error _ _ _ _ _ h]; exact ⟨rfl, rfl, rfl, rfl⟩
  | none =>
      rw [select_none_eq] at h
      cases hrc : s.rcBackend with
      | autoSentinel =>
          rw [hrc] at h
          rw [tryCandidates_error _ _ _ _ _ h]
          exact ⟨rfl, hrc, rfl, rfl⟩
      | str nm0 =>
          rw [hrc] at h
          rw [selectName_error _ _ _ _ _ h]
          exact ⟨rfl, hrc, rfl, rfl⟩

/-! ### Decimal rendering: the synthesized key is injective in the object id -/

/-- One step of reading a decimal string back into a number. -/
def digitStep (a : Nat) (c : Char) : Nat :=
  a * 10 + (c.toNat - 48)

/-- Read a most-significant-first decimal digit list back into a number. -/
def charsVal (l : List Char) : Nat :=
  l.foldl digitStep 0

theorem digitStep_digitChar (a d : Nat) (hd : d < 10) :
    digitStep a (Nat.digitChar d) = a * 10 + d := by
  interval_cases d <;> rfl

theorem foldl_natDecimalAux (f : Nat) : ∀ n a, n ≤ f →
    List.foldl digitStep a (natDecimalAux f n) =
      a * 10 ^ (natDecimalAux f n).length + n := by
  induction f with
  | zero =>
      intro n a hn
      interval_cases n
      simp [natDecimalAux]
  | succ f ih =>
      intro n a hn
      by_cases h0 : n = 0
      · subst h0
        simp [natDecimalAux]
      · have hdiv : n / 10 ≤ f := by
          have h1 : n / 10 < n := Nat.div_lt_self (Nat.pos_of_ne_zero h0) (by norm_num)
          omega
        rw [natDecimalAux, if_neg h0, List.foldl_append, ih (n / 10) a hdiv]
        simp only [List.foldl_cons, List.foldl_nil, List.length_append,
          List.length_singleton]
        rw [digitStep_digitChar _ _ (Nat.mod_lt _ (by norm_num))]
        have hqr : 10 * (n / 10) + n % 10 = n := Nat.div_add_mod n 10
        set k := (natDecimalAux f (n / 10)).length with hk
        calc (a * 10 ^ k + n / 10) * 10 + n % 10
            = a * (10 ^ k * 10) + (10 * (n / 10) + n % 10) := by ring
          _ = a * 10 ^ (k + 1) + n := by rw [hqr, pow_succ]

theorem charsVal_natDecimal (n : Nat) : charsVal (natDecimal n).data = n := by
  unfold natDecimal
  by_cases h0 : n = 0
  · subst h0
    rfl
  · rw [if_neg h0]
    have := foldl_natDecimalAux n n 0 (Nat.le_refl n)
    simpa [charsVal] using this

theorem natDecimal_inj (m n : Nat) (h : natDecimal m = natDecimal n) : m = n := by
  have hv := congrArg (fun s : String => charsVal s.data) h
  simpa [charsVal_natDecimal] using hv

theorem string_data_append (a b : String) : (a ++ b).data = a.data ++ b.data :=
  rfl

theorem string_append_assoc (a b c : String) : a ++ b ++ c = a ++ (b ++ c) := by
  cases a with
  | mk la =>
      cases b with
      | mk lb =>
          cases c with
          | mk lc =>
              show String.mk (la ++ lb ++ lc) = String.mk (la ++ (lb ++ lc))
              rw [List.append_assoc]

theorem backendKey_inj (b1 b2 : Backend) (h : backendKey b1 = backendKey b2) :
    b1.hid = b2.hid := by
  have hd := congrArg String.data h
  unfold backendKey at hd
  rw [string_data_append, string_data_append] at hd
  have hl := List.append_cancel_left hd
  have hv := congrArg charsVal hl
  rw [charsVal_natDecimal, charsVal_natDecimal] at hv
  exact hv

/-- `part` occurs verbatim inside `msg`. -/
def mentionedIn (part msg : String) : Prop :=
  ∃ pre post, msg = pre ++ part ++ post

theorem incompatible_message_mentions (d req cur : String) :
    mentionedIn d (PyErr.incompatible d req cur).message ∧
      mentionedIn req (PyErr.incompatible d req cur).message ∧
      mentionedIn cur (PyErr.incompatible d req cur).message := by
  refine ⟨⟨"Cannot load backend " ++ pyQuote,
      pyQuote ++ " which requires the " ++ pyRepr req ++
        " interactive framework, as " ++ pyRepr cur ++ " is currently running", ?_⟩,
    ⟨"Cannot load backend " ++ pyRepr d ++ " which requires the " ++ pyQuote,
      pyQuote ++ " interactive framework, as " ++ pyRepr cur ++
        " is currently running", ?_⟩,
    ⟨"Cannot load backend " ++ pyRepr d ++ " which requires the " ++ pyRepr req ++
        " interactive framework, as " ++ pyQuote,
      pyQuote ++ " is currently running", ?_⟩⟩ <;>
    simp [PyErr.message, pyRepr, string_append_assoc]

theorem finishSelect_incompatible (env : Env) (d rc : String) (b : Backend)
    (s : MState) (req cur : String)
    (hb : b.required_interactive_framework = Option.some req)
    (hc : env.runningFramework = Option.some cur)
    (h1 : cur ≠ "") (h2 : req ≠ "") (h3 : cur ≠ req) :
    finishSelect env d rc b s = Except.error (PyErr.incompatible d req cur, s) := by
  have hif : (if cur ≠ "" ∧ req ≠ "" ∧ cur ≠ req then
        (Except.error (PyErr.incompatible d req cur, s) : SelRes)
      else Except.ok (b, commitState env rc b s)) =
      Except.error (PyErr.incompatible d req cur, s) :=
    if_pos ⟨h1, h2, h3⟩
  unfold finishSelect
  rw [hb, hc]
  exact hif

/-! ### Concrete fixtures -/

/-- The pristine initial state: no active backend, both rcParams slots
holding the auto sentinel. -/
def initState : MState :=
  { backendMod := Option.none
    rcBackend := RcVal.autoSentinel
    rcDefault := RcVal.autoSentinel
    sysModules := []
    enabledGui := [] }

/-- A probe reporting a running qt event loop; in the registry `qtagg` is
missing, `macosx` imports but requires the macosx framework, and `qt5agg`
imports and requires qt. -/
def qtEnv : Env :=
  { resolve := fun n =>
      if n = "qt5agg" then ImportResult.ok ⟨2, Option.some ("qt")⟩
      else if n = "macosx" then ImportResult.ok ⟨1, Option.some ("macosx")⟩
      else ImportResult.unavailable
    runningFramework := Option.some ("qt")
    ipythonActive := false }

/-- A probe reporting a running tk event loop and a registry where only
`tkagg` is importable. -/
def tkEnv : Env :=
  { resolve := fun n =>
      if n = "tkagg" then ImportResult.ok ⟨3, Option.some ("tk")⟩
      else ImportResult.unavailable
    runningFramework := Option.some ("tk")
    ipythonActive := false }

/-- No running framework; only the last-resort `agg` backend is importable,
and it declares no framework requirement. -/
def aggEnv : Env :=
  { resolve := fun n =>
      if n = "agg" then ImportResult.ok ⟨7, Option.none⟩
      else ImportResult.unavailable
    runningFramework := Option.none
    ipythonActive := false }

/-- The tk environment with an active IPython session. -/
def ipyEnv : Env :=
  { tkEnv with ipythonActive := true }

/-- A directly-supplied backend handle requiring the gtk framework. -/
def gtkBackend : Backend :=
  ⟨5, Option.some ("gtk")⟩

/-! ### The claims -/

/-- Claim C1 as frozen is false on the code: during auto-detection with a
running qt loop, the candidate `macosx` fails the compatibility check with
the Incompatible error (first conjunct), yet since that error is raised as
an `ImportError` the loop advances and the later candidate `qt5agg` is
selected (second conjunct), instead of the Incompatible error propagating
out of the loop (third conjunct). -/
theorem C1_counterexample :
    selectName qtEnv ("macosx") initState =
        Except.error (PyErr.incompatible ("macosx") ("macosx") ("qt"), initState) ∧
      select_gui_toolkit qtEnv SelectArg.auto initState =
        Except.ok (⟨2, Option.some ("qt")⟩,
          { initState with
              rcBackend := RcVal.str ("qt5agg")
              rcDefault := RcVal.str ("qt5agg")
              backendMod := Option.some ⟨2, Option.some ("qt")⟩ }) ∧
      select_gui_toolkit qtEnv SelectArg.auto initState ≠
        Except.error (PyErr.incompatible ("macosx") ("macosx") ("qt"), initState) := by
  refine ⟨rfl, rfl, ?_⟩
  decide

/-- Claim C1, amended: during auto-detection, every failure of a candidate
— Unavailable or Incompatible alike, since both are raised as Python
`ImportError` — causes advancement to the next candidate; only an error
that is not an `ImportError` would propagate out of the loop, and no such
error exists among the two failure modes. -/
theorem C1_auto_advances_on_import_error (env : Env) (c : String)
    (rest : List String) (s : MState) (e : PyErr) (s1 : MState)
    (h : selectName env c s = Except.error (e, s1)) :
    PyErr.isImportError e = true ∧
      tryCandidates env (c :: rest) s = tryCandidates env rest s1 := by
  have he : PyErr.isImportError e = true := by cases e <;> rfl
  refine ⟨he, ?_⟩
  simp [tryCandidates, h, he]

/-- Witness for the amended C1 at the qt fixture: the Incompatible failure
of `macosx` is an import error and the loop advances past it. -/
theorem C1_amended_witness :
    PyErr.isImportError (PyErr.incompatible ("macosx") ("macosx") ("qt")) = true ∧
      tryCandidates qtEnv ("macosx" :: ["wxagg"]) initState =
        tryCandidates qtEnv ["wxagg"] initState :=
  C1_auto_advances_on_import_error qtEnv ("macosx") ["wxagg"] initState
    (PyErr.incompatible ("macosx") ("macosx") ("qt")) initState rfl

/-- Claim C2: every erroring `select_gui_toolkit` call leaves the resolver
state (`_backend_mod`) and both rcParams backend slots exactly as they were
before the call. -/
theorem C2_select_error_preserves_state (env : Env) (arg : SelectArg) (s : MState)
    (e : PyErr) (s1 : MState)
    (h : select_gui_toolkit env arg s = Except.error (e, s1)) :
    s1.backendMod = s.backendMod ∧ s1.rcBackend = s.rcBackend ∧
      s1.rcDefault = s.rcDefault := by
  obtain ⟨h1, h2, h3, -⟩ := select_error_state _ _ _ _ _ h
  exact ⟨h1, h2, h3⟩

/-- Witness for C2: the Unavailable failure of selecting `qtagg` leaves the
initial state untouched. -/
theorem C2_witness :
    select_gui_toolkit qtEnv (SelectArg.name ("qtagg")) initState =
        Except.error (PyErr.importUnavailable ("qtagg"), initState) ∧
      initState.backendMod = initState.backendMod ∧
      initState.rcBackend = initState.rcBackend ∧
      initState.rcDefault = initState.rcDefault :=
  ⟨rfl, C2_select_error_preserves_state qtEnv (SelectArg.name ("qtagg")) initState
    (PyErr.importUnavailable ("qtagg")) initState rfl⟩

/-- Claim C3: selecting a directly-passed handle fails (necessarily with the
Incompatible error) iff the handle declares a required framework, the probe
reports a running framework, and the two differ; the error names the
requested toolkit, its requirement and the running framework in its message;
and with no running framework any handle is accepted. -/
theorem C3_handle_incompatible_iff (env : Env) (b : Backend) (s : MState)
    (hreq : b.required_interactive_framework ≠ Option.some "")
    (hrun : env.runningFramework ≠ Option.some "") :
    ((∃ e s1, select_gui_toolkit env (SelectArg.handle b) s = Except.error (e, s1)) ↔
      (∃ req cur, b.required_interactive_framework = Option.some req ∧
        env.runningFramework = Option.some cur ∧ req ≠ cur)) ∧
    (∀ req cur, b.required_interactive_framework = Option.some req →
      env.runningFramework = Option.some cur → req ≠ cur →
      select_gui_toolkit env (SelectArg.handle b) s =
          Except.error (PyErr.incompatible (backendRepr b) req cur,
            { s with sysModules := s.sysModules ++ [(backendKey b, b)] }) ∧
        mentionedIn (backendRepr b) (PyErr.incompatible (backendRepr b) req cur).message ∧
        mentionedIn req (PyErr.incompatible (backendRepr b) req cur).message ∧
        mentionedIn cur (PyErr.incompatible (backendRepr b) req cur).message) ∧
    (env.runningFramework = Option.none →
      ∃ s1, select_gui_toolkit env (SelectArg.handle b) s = Except.ok (b, s1)) := by
  have hfail : ∀ req cur, b.required_interactive_framework = Option.some req →
      env.runningFramework = Option.some cur → req ≠ cur →
      select_gui_toolkit env (SelectArg.handle b) s =
        Except.error (PyErr.incompatible (backendRepr b) req cur,
          { s with sysModules := s.sysModules ++ [(backendKey b, b)] }) := by
    intro req cur hb hc hne
    have h2 : req ≠ "" := fun h0 => hreq (h0 ▸ hb)
    have h1 : cur ≠ "" := fun h0 => hrun (h0 ▸ hc)
    exact finishSelect_incompatible env (backendRepr b) (backendKey b) b
      { s with sysModules := s.sysModules ++ [(backendKey b, b)] } req cur hb hc h1 h2
      (Ne.symm hne)
  refine ⟨⟨?_, ?_⟩, ?_, ?_⟩
  · rintro ⟨e, s1, h⟩
    obtain ⟨-, req, cur, -, hb, hc, -, -, hcr⟩ :=
      finishSelect_error env (backendRepr b) (backendKey b) b
        { s with sysModules := s.sysModules ++ [(backendKey b, b)] } e s1 h
    exact ⟨req, cur, hb, hc, Ne.symm hcr⟩
  · rintro ⟨req, cur, hb, hc, hne⟩
    exact ⟨PyErr.incompatible (backendRepr b) req cur,
      { s with sysModules := s.sysModules ++ [(backendKey b, b)] },
      hfail req cur hb hc hne⟩
  · intro req cur hb hc hne
    obtain ⟨m1, m2, m3⟩ := incompatible_message_mentions (backendRepr b) req cur
    exact ⟨hfail req cur hb hc hne, m1, m2, m3⟩
  · intro hnone
    exact ⟨_, finishSelect_ok_of_no_framework env (backendRepr b) (backendKey b) b
      { s with sysModules := s.sysModules ++ [(backendKey b, b)] } hnone⟩

/-- Witness for C3 at the spec's own example: probe reports qt, the handle
requires gtk. -/
theorem C3_witness :
    ((∃ e s1, select_gui_toolkit qtEnv (SelectArg.handle gtkBackend) initState =
        Except.error (e, s1)) ↔
      (∃ req cur, gtkBackend.required_interactive_framework = Option.some req ∧
        qtEnv.runningFramework = Option.some cur ∧ req ≠ cur)) ∧
    (∀ req cur, gtkBackend.required_interactive_framework = Option.some req →
      qtEnv.runningFramework = Option.some cur → req ≠ cur →
      select_gui_toolkit qtEnv (SelectArg.handle gtkBackend) initState =
          Except.error (PyErr.incompatible (backendRepr gtkBackend) req cur,
            { initState with
                sysModules := initState.sysModules ++ [(backendKey gtkBackend, gtkBackend)] }) ∧
        mentionedIn (backendRepr gtkBackend)
          (PyErr.incompatible (backendRepr gtkBackend) req cur).message ∧
        mentionedIn req (PyErr.incompatible (backendRepr gtkBackend) req cur).message ∧
        mentionedIn cur (PyErr.incompatible (backendRepr gtkBackend) req cur).message) ∧
    (qtEnv.runningFramework = Option.none →
      ∃ s1, select_gui_toolkit qtEnv (SelectArg.handle gtkBackend) initState =
        Except.ok (gtkBackend, s1)) :=
  C3_handle_incompatible_iff qtEnv gtkBackend initState (by decide) (by decide)

/-- Claim C4: `current_backend_module` never returns an unset handle and is
idempotent: a second call without an intervening select returns the same
handle and state. -/
theorem C4_get_current_idempotent (env : Env) (s : MState) (m : Option Backend)
    (s1 : MState) (h : current_backend_module env s = Except.ok (m, s1)) :
    m.isSome = true ∧ current_backend_module env s1 = Except.ok (m, s1) := by
  unfold current_backend_module at h
  cases hbm : s.backendMod with
  | some b =>
      rw [hbm] at h
      obtain ⟨hm, hs⟩ := Prod.mk.injEq .. ▸ Except.ok.inj h
      subst hs
      subst hm
      refine ⟨rfl, ?_⟩
      unfold current_backend_module
      rw [hbm]
  | none =>
      rw [hbm] at h
      cases hsel : select_gui_toolkit env SelectArg.none s with
      | error p => rw [hsel] at h; exact absurd h (by simp)
      | ok p =>
          obtain ⟨b2, s2⟩ := p
          rw [hsel] at h
          obtain ⟨hm, hs⟩ := Prod.mk.injEq .. ▸ Except.ok.inj h
          subst hs
          obtain ⟨-, -, -, hmod, -⟩ := select_ok_post _ _ _ _ _ hsel
          constructor
          · rw [← hm, hmod]; rfl
          · unfold current_backend_module
            rw [hm] at hmod ⊢
            rw [hmod]

/-- Witness for C4 at the qt fixture, where the first call auto-selects
`qt5agg`. -/
theorem C4_witness :
    current_backend_module qtEnv initState =
        Except.ok (Option.some ⟨2, Option.some ("qt")⟩,
          { initState with
              rcBackend := RcVal.str ("qt5agg")
              rcDefault := RcVal.str ("qt5agg")
              backendMod := Option.some ⟨2, Option.some ("qt")⟩ }) ∧
      (Option.some (Backend.mk 2 (Option.some ("qt")))).isSome = true ∧
      current_backend_module qtEnv
          { initState with
              rcBackend := RcVal.str ("qt5agg")
              rcDefault := RcVal.str ("qt5agg")
              backendMod := Option.some ⟨2, Option.some ("qt")⟩ } =
        Except.ok (Option.some ⟨2, Option.some ("qt")⟩,
          { initState with
              rcBackend := RcVal.str ("qt5agg")
              rcDefault := RcVal.str ("qt5agg")
              backendMod := Option.some ⟨2, Option.some ("qt")⟩ }) :=
  ⟨rfl, C4_get_current_idempotent qtEnv initState _ _ rfl⟩

/-- Claim C5: a directly-passed handle is used as-is, its synthesized key —
injective in the object identity — is recorded in `sys.modules` and
persisted as the configured backend name, and a subsequent
`current_backend_module` returns that same object. -/
theorem C5_handle_used_as_is (env : Env) (b : Backend) (s : MState) (bk : Backend)
    (s1 : MState)
    (h : select_gui_toolkit env (SelectArg.handle b) s = Except.ok (bk, s1)) :
    bk = b ∧
      s1.sysModules = s.sysModules ++ [(backendKey b, b)] ∧
      s1.rcBackend = RcVal.str (backendKey b) ∧
      s1.rcDefault = RcVal.str (backendKey b) ∧
      (∀ b2 : Backend, backendKey b2 = backendKey b → b2.hid = b.hid) ∧
      current_backend_module env s1 = Except.ok (Option.some b, s1) := by
  obtain ⟨hb, hs⟩ := selectHandle_ok _ _ _ _ _ h
  have hbm : s1.backendMod = Option.some b := by rw [hs, commitState_backendMod]
  refine ⟨hb, ?_, ?_, ?_, ?_, ?_⟩
  · rw [hs, commitState_sysModules]
  · rw [hs, commitState_rcBackend]
  · rw [hs, commitState_rcDefault]
  · exact fun b2 h2 => backendKey_inj _ _ h2
  · unfold current_backend_module
    rw [hbm]

/-- Witness for C5: selecting the gtk handle with no running framework. -/
theorem C5_witness :
    select_gui_toolkit aggEnv (SelectArg.handle gtkBackend) initState =
        Except.ok (gtkBackend,
          { initState with
              rcBackend := RcVal.str (backendKey gtkBackend)
              rcDefault := RcVal.str (backendKey gtkBackend)
              backendMod := Option.some gtkBackend
              sysModules := [(backendKey gtkBackend, gtkBackend)] }) ∧
      (gtkBackend = gtkBackend ∧
        (({ initState with
              rcBackend := RcVal.str (backendKey gtkBackend)
              rcDefault := RcVal.str (backendKey gtkBackend)
              backendMod := Option.some gtkBackend
              sysModules := [(backendKey gtkBackend, gtkBackend)] } : MState).sysModules =
            initState.sysModules ++ [(backendKey gtkBackend, gtkBackend)]) ∧
        (({ initState with
              rcBackend := RcVal.str (backendKey gtkBackend)
              rcDefault := RcVal.str (backendKey gtkBackend)
              backendMod := Option.some gtkBackend
              sysModules := [(backendKey gtkBackend, gtkBackend)] } : MState).rcBackend =
            RcVal.str (backendKey gtkBackend)) ∧
        (({ initState with
              rcBackend := RcVal.str (backendKey gtkBackend)
              rcDefault := RcVal.str (backendKey gtkBackend)
              backendMod := Option.some gtkBackend
              sysModules := [(backendKey gtkBackend, gtkBackend)] } : MState).rcDefault =
            RcVal.str (backendKey gtkBackend)) ∧
        (∀ b2 : Backend, backendKey b2 = backendKey gtkBackend → b2.hid = gtkBackend.hid) ∧
        current_backend_module aggEnv
            { initState with
                rcBackend := RcVal.str (backendKey gtkBackend)
                rcDefault := RcVal.str (backendKey gtkBackend)
                backendMod := Option.some gtkBackend
                sysModules := [(backendKey gtkBackend, gtkBackend)] } =
          Except.ok (Option.some gtkBackend,
            { initState with
                rcBackend := RcVal.str (backendKey gtkBackend)
                rcDefault := RcVal.str (backendKey gtkBackend)
                backendMod := Option.some gtkBackend
                sysModules := [(backendKey gtkBackend, gtkBackend)] })) :=
  ⟨rfl, C5_handle_used_as_is aggEnv gtkBackend initState gtkBackend _ rfl⟩

/-- Claim C6: the auto-detection candidate list is the priority-table best
guess for the probed framework first (omitted when the framework is absent
or unmapped), followed by the fixed fallback sequence; with the probe
reporting tk the best guess is `tkagg`, and when `tkagg` resolves
successfully auto-detection returns exactly its result, regardless of what
the registry would say for any other candidate. -/
theorem C6_auto_candidate_order (env : Env) (s : MState) (b : Backend) (s1 : MState)
    (hfw : env.runningFramework = Option.some ("tk"))
    (hok : selectName env ("tkagg") s = Except.ok (b, s1)) :
    autoCandidates env = "tkagg" :: fallbackCandidates ∧
      select_gui_toolkit env SelectArg.auto s = Except.ok (b, s1) ∧
      (∀ env2 : Env, env2.runningFramework = Option.none →
        autoCandidates env2 = fallbackCandidates) ∧
      (∀ env2 : Env, ∀ fw, env2.runningFramework = Option.some fw →
        frameworkMapping fw = Option.none → autoCandidates env2 = fallbackCandidates) ∧
      (∀ env2 : Env, ∀ fw g, env2.runningFramework = Option.some fw →
        frameworkMapping fw = Option.some g →
        autoCandidates env2 = g :: fallbackCandidates) := by
  have hc : autoCandidates env = "tkagg" :: fallbackCandidates := by
    unfold autoCandidates
    rw [hfw]
    rfl
  refine ⟨hc, ?_, ?_, ?_, ?_⟩
  · rw [select_auto_eq, hc]
    simp [tryCandidates, hok]
  · intro env2 h2
    unfold autoCandidates
    rw [h2]
    rfl
  · intro env2 fw h2 hmap
    unfold autoCandidates
    rw [h2]
    simp [hmap]
  · intro env2 fw g h2 hmap
    unfold autoCandidates
    rw [h2]
    simp [hmap]

/-- Witness for C6 at the tk fixture, where `tkagg` resolves and matches the
running framework. -/
theorem C6_witness :
    autoCandidates tkEnv = "tkagg" :: fallbackCandidates ∧
      select_gui_toolkit tkEnv SelectArg.auto initState =
        Except.ok (⟨3, Option.some ("tk")⟩,
          { initState with
              rcBackend := RcVal.str ("tkagg")
              rcDefault := RcVal.str ("tkagg")
              backendMod := Option.some ⟨3, Option.some ("tk")⟩ }) ∧
      (∀ env2 : Env, env2.runningFramework = Option.none →
        autoCandidates env2 = fallbackCandidates) ∧
      (∀ env2 : Env, ∀ fw, env2.runningFramework = Option.some fw →
        frameworkMapping fw = Option.none → autoCandidates env2 = fallbackCandidates) ∧
      (∀ env2 : Env, ∀ fw g, env2.runningFramework = Option.some fw →
        frameworkMapping fw = Option.some g →
        autoCandidates env2 = g :: fallbackCandidates) :=
  C6_auto_candidate_order tkEnv initState ⟨3, Option.some ("tk")⟩
    { initState with
        rcBackend := RcVal.str ("tkagg")
        rcDefault := RcVal.str ("tkagg")
        backendMod := Option.some ⟨3, Option.some ("tk")⟩ } rfl rfl

/-- Claim C7: when every auto-detection candidate is Unavailable, the loop
falls through to selecting the last-resort `agg` backend: auto-detection
returns exactly what selecting `agg` returns, so it succeeds (and never
raises Unavailable) whenever the last resort succeeds, and propagates the
failure uncaught when even the last resort fails. -/
theorem C7_last_resort_agg (env : Env) (s : MState)
    (hall : ∀ c ∈ autoCandidates env, env.resolve c = ImportResult.unavailable) :
    select_gui_toolkit env SelectArg.auto s = selectName env ("agg") s ∧
      (∀ b s1, selectName env ("agg") s = Except.ok (b, s1) →
        select_gui_toolkit env SelectArg.auto s = Except.ok (b, s1)) ∧
      (∀ e s1, selectName env ("agg") s = Except.error (e, s1) →
        select_gui_toolkit env SelectArg.auto s = Except.error (e, s1)) := by
  have key : ∀ l : List String, (∀ c ∈ l, env.resolve c = ImportResult.unavailable) →
      tryCandidates env l s = selectName env ("agg") s := by
    intro l
    induction l with
    | nil => intro _; rfl
    | cons c rest ih =>
        intro hl
        have hsel : selectName env c s = Except.error (PyErr.importUnavailable c, s) := by
          unfold selectName
          rw [hl c (List.mem_cons_self c rest)]
        calc tryCandidates env (c :: rest) s = tryCandidates env rest s := by
              simp [tryCandidates, hsel, PyErr.isImportError]
          _ = selectName env ("agg") s := ih fun c2 hc2 => hl c2 (List.mem_cons_of_mem c hc2)
  have h0 : select_gui_toolkit env SelectArg.auto s = selectName env ("agg") s := by
    rw [select_auto_eq]
    exact key _ hall
  exact ⟨h0, fun b s1 hok => h0.trans hok, fun e s1 herr => h0.trans herr⟩

/-- Witness for C7: with no running framework and only `agg` importable,
auto-detection ends by committing `agg`. -/
theorem C7_witness :
    (∀ c ∈ autoCandidates aggEnv, aggEnv.resolve c = ImportResult.unavailable) ∧
      select_gui_toolkit aggEnv SelectArg.auto initState =
        selectName aggEnv ("agg") initState ∧
      (∀ b s1, selectName aggEnv ("agg") initState = Except.ok (b, s1) →
        select_gui_toolkit aggEnv SelectArg.auto initState = Except.ok (b, s1)) ∧
      (∀ e s1, selectName aggEnv ("agg") initState = Except.error (e, s1) →
        select_gui_toolkit aggEnv SelectArg.auto initState = Except.error (e, s1)) :=
  ⟨by decide, C7_last_resort_agg aggEnv initState (by decide)⟩

/-- Claim C8: every successful select persists one resolved name into both
rcParams slots, replaces the resolver state with the returned handle, and —
exactly when an IPython session is active — appends an `enable_gui`
notification carrying the new handle's required framework. -/
theorem C8_success_commits (env : Env) (arg : SelectArg) (s : MState) (b : Backend)
    (s1 : MState) (h : select_gui_toolkit env arg s = Except.ok (b, s1)) :
    ∃ nm, s1.rcBackend = RcVal.str nm ∧ s1.rcDefault = RcVal.str nm ∧
      s1.backendMod = Option.some b ∧
      s1.enabledGui =
        (if env.ipythonActive then s.enabledGui ++ [b.required_interactive_framework]
         else s.enabledGui) :=
  select_ok_post env arg s b s1 h

/-- Witness for C8 with an active IPython session: selecting `tkagg`
notifies the session of the tk framework. -/
theorem C8_witness :
    select_gui_toolkit ipyEnv (SelectArg.name ("tkagg")) initState =
        Except.ok (⟨3, Option.some ("tk")⟩,
          { initState with
              rcBackend := RcVal.str ("tkagg")
              rcDefault := RcVal.str ("tkagg")
              backendMod := Option.some ⟨3, Option.some ("tk")⟩
              enabledGui := [Option.some ("tk")] }) ∧
      ∃ nm,
        ({ initState with
            rcBackend := RcVal.str ("tkagg")
            rcDefault := RcVal.str ("tkagg")
            backendMod := Option.some ⟨3, Option.some ("tk")⟩
            enabledGui := [Option.some ("tk")] } : MState).rcBackend = RcVal.str nm ∧
        ({ initState with
            rcBackend := RcVal.str ("tkagg")
            rcDefault := RcVal.str ("tkagg")
            backendMod := Option.some ⟨3, Option.some ("tk")⟩
            enabledGui := [Option.some ("tk")] } : MState).rcDefault = RcVal.str nm ∧
        ({ initState with
            rcBackend := RcVal.str ("tkagg")
            rcDefault := RcVal.str ("tkagg")
            backendMod := Option.some ⟨3, Option.some ("tk")⟩
            enabledGui := [Option.some ("tk")] } : MState).backendMod =
          Option.some ⟨3, Option.some ("tk")⟩ ∧
        ({ initState with
            rcBackend := RcVal.str ("tkagg")
            rcDefault := RcVal.str ("tkagg")
            backendMod := Option.some ⟨3, Option.some ("tk")⟩
            enabledGui := [Option.some ("tk")] } : MState).enabledGui =
          (if ipyEnv.ipythonActive then
            initState.enabledGui ++
              [(Backend.mk 3 (Option.some ("tk"))).required_interactive_framework]
           else initState.enabledGui) :=
  ⟨rfl, C8_success_commits ipyEnv (SelectArg.name ("tkagg")) initState
    ⟨3, Option.some ("tk")⟩ _ rfl⟩

/-- Claim C9: `select_gui_toolkit` always terminates with recursion depth at
most two: the fuel-indexed literal transcription of the Python recursion,
whose auto-detection branch only ever recurses with concrete string
candidate names, never exhausts any fuel of at least two and agrees with
the structural (manifestly total) embedding. -/
theorem C9_terminates_depth_two (env : Env) (n : Nat) (arg : SelectArg) (s : MState) :
    selectFuel env (n + 2) arg s = Option.some (select_gui_toolkit env arg s) := by
  have hname : ∀ (m : Nat) (nm : String) (s2 : MState),
      selectFuel env (m + 1) (SelectArg.name nm) s2 =
        Option.some (selectName env nm s2) := by
    intro m nm s2
    simp [selectFuel]
  have htry : ∀ (m : Nat) (l : List String) (s2 : MState),
      tryFuel env (m + 1) l s2 = Option.some (tryCandidates env l s2) := by
    intro m l
    induction l with
    | nil =>
        intro s2
        rw [tryFuel, hname]
        rfl
    | cons c rest ih =>
        intro s2
        rw [tryFuel, hname]
        cases hres : selectName env c s2 with
        | ok r => simp [tryCandidates, hres]
        | error p =>
            obtain ⟨e0, s0⟩ := p
            by_cases hie : PyErr.isImportError e0 = true
            · simp [tryCandidates, hres, hie, ih]
            · simp [tryCandidates, hres, hie]
  cases arg with
  | name nm => rw [hname (n + 1), select_name_eq]
  | handle b =>
      show selectFuel env (Nat.succ (n + 1)) (SelectArg.handle b) s = _
      rw [selectFuel]
      rfl
  | auto =>
      show selectFuel env (Nat.succ (n + 1)) SelectArg.auto s = _
      rw [selectFuel, htry, select_auto_eq]
  | none =>
      show selectFuel env (Nat.succ (n + 1)) SelectArg.none s = _
      rw [selectFuel, select_none_eq]
      cases hrc : s.rcBackend with
      | autoSentinel => rw [htry]
      | str nm => rfl

/-- Claim C10: when a directly-passed handle is rejected by the
compatibility check, the synthesized `sys.modules` registration — performed
before the check — survives the failed call, while the resolver state and
both rcParams slots are untouched; the failure is necessarily the
Incompatible error. -/
theorem C10_registration_survives_failure (env : Env) (b : Backend) (s : MState)
    (e : PyErr) (s1 : MState)
    (h : select_gui_toolkit env (SelectArg.handle b) s = Except.error (e, s1)) :
    (∃ req cur, e = PyErr.incompatible (backendRepr b) req cur) ∧
      s1.sysModules = s.sysModules ++ [(backendKey b, b)] ∧
      s1.backendMod = s.backendMod ∧ s1.rcBackend = s.rcBackend ∧
      s1.rcDefault = s.rcDefault := by
  obtain ⟨hs, hex⟩ := selectHandle_error _ _ _ _ _ h
  exact ⟨hex, by rw [hs], by rw [hs], by rw [hs], by rw [hs]⟩

/-- Witness for C10: the gtk handle rejected under a running qt loop leaves
its `sys.modules` registration behind. -/
theorem C10_witness :
    select_gui_toolkit qtEnv (SelectArg.handle gtkBackend) initState =
        Except.error (PyErr.incompatible (backendRepr gtkBackend) ("gtk") ("qt"),
          { initState with sysModules := [(backendKey gtkBackend, gtkBackend)] }) ∧
      (∃ req cur, PyErr.incompatible (backendRepr gtkBackend) ("gtk") ("qt") =
        PyErr.incompatible (backendRepr gtkBackend) req cur) ∧
      (({ initState with
            sysModules := [(backendKey gtkBackend, gtkBackend)] } : MState).sysModules =
        initState.sysModules ++ [(backendKey gtkBackend, gtkBackend)]) ∧
      (({ initState with
            sysModules := [(backendKey gtkBackend, gtkBackend)] } : MState).backendMod =
        initState.backendMod) ∧
      (({ initState with
            sysModules := [(backendKey gtkBackend, gtkBackend)] } : MState).rcBackend =
        initState.rcBackend) ∧
      (({ initState with
            sysModules := [(backendKey gtkBackend, gtkBackend)] } : MState).rcDefault =
        initState.rcDefault) :=
  ⟨rfl, C10_registration_survives_failure qtEnv gtkBackend initState
    (PyErr.incompatible (backendRepr gtkBackend) ("gtk") ("qt")) _ rfl⟩

end MplGui
